import Mathlib

/-!
Shallow embedding of the tracking-session core of the location-tracker
repository.  The authoritative component is
`src/components/ContinuousLocationTracker.js` (the path-recording variant);
the durable-storage functions (`saveLocationToStorage` and the
load-from-storage effect) come from the background-tracking variant of
`LocationTracker`.  Coordinates are modelled as exact rationals; the
decimal literals of the source are exactly representable, and on the
scenario inputs the exact comparison agrees with the source's binary64
comparison (both axis differences of the filtered fix fall on or below
the threshold in either arithmetic).
-/

/-- A position sample as constructed in the source:
`{ lat, lng, timestamp: Date.now(), accuracy }`. -/
structure Location where
  lat : ℚ
  lng : ℚ
  timestamp : ℤ
  accuracy : Option ℚ
deriving DecidableEq, Repr

/-- The hard-coded threshold `0.00001` of `isSignificantMove`. -/
def thresholdDegrees : ℚ := 1 / 100000

/-- `isSignificantMove` with the threshold constant abstracted:
`if (!lastLocation) return true; return latDiff > t || lngDiff > t`. -/
def isSignificantMoveWith (threshold : ℚ) (newLocation : Location)
    (lastLocation : Option Location) : Bool :=
  match lastLocation with
  | none => true
  | some lastLocation =>
    let latDiff := |newLocation.lat - lastLocation.lat|
    let lngDiff := |newLocation.lng - lastLocation.lng|
    decide (latDiff > threshold) || decide (lngDiff > threshold)

/-- `isSignificantMove` of `ContinuousLocationTracker.js` (threshold 0.00001). -/
def isSignificantMove (newLocation : Location) (lastLocation : Option Location) : Bool :=
  isSignificantMoveWith thresholdDegrees newLocation lastLocation

/-- Rendering of a location into the debug log (stands for `JSON.stringify`). -/
def locString (l : Location) : String :=
  toString l.lat ++ "," ++ toString l.lng

/-- Component state of `ContinuousLocationTracker.js`: the five `useState`
hooks `path`, `isTracking`, `error`, `watchId`, `debugInfo`. -/
structure TrackerState where
  path : List Location
  isTracking : Bool
  error : Option String
  watchId : Option Nat
  debugInfo : String
deriving DecidableEq, Repr

/-- Initial hook values: `[]`, `false`, `null`, `null`, `""`. -/
def initState : TrackerState :=
  { path := [], isTracking := false, error := none, watchId := none, debugInfo := "" }

/-- The consumer-visible current position: the component centres the map on
`path[path.length - 1]` (falling back to a default when the path is empty). -/
def currentPosition (s : TrackerState) : Option Location :=
  s.path.getLast?

/-- Sensor error kinds of the geolocation boundary. -/
inductive SensorErrorKind
  | sensorUnavailable
  | permissionDenied
  | positionUnavailable
  | timeout
deriving DecidableEq, Repr

/-- Platform-supplied `err.message` text for each error kind. -/
def errMessage : SensorErrorKind → String
  | .sensorUnavailable => "sensor unavailable"
  | .permissionDenied => "permission denied"
  | .positionUnavailable => "position unavailable"
  | .timeout => "timed out"

/-- `getCurrentPosition` success callback: `setPath([initialLocation])`
plus a debug append.  Note the wholesale replacement of `path`. -/
def handleInitialPosition (initialLocation : Location) (s : TrackerState) : TrackerState :=
  { s with
    path := [initialLocation]
    debugInfo := s.debugInfo ++ "\nGot initial position: " ++ locString initialLocation }

/-- `getCurrentPosition` error callback: `setError`, debug append. -/
def handleInitialError (e : SensorErrorKind) (s : TrackerState) : TrackerState :=
  { s with
    error := some ("Initial position error: " ++ errMessage e)
    debugInfo := s.debugInfo ++ "\nInitial position error: " ++ errMessage e }

/-- `watchPosition` success callback: debug append, then the functional
`setPath` update (append when the path is empty or the move is significant),
then `setError(null)`. -/
def handleWatchPosition (newLocation : Location) (s : TrackerState) : TrackerState :=
  let s1 : TrackerState :=
    { s with debugInfo := s.debugInfo ++ "\nNew location received: " ++ locString newLocation }
  let lastLocation := s1.path.getLast?
  let s2 : TrackerState :=
    if lastLocation.isNone || isSignificantMove newLocation lastLocation then
      { s1 with
        path := s1.path ++ [newLocation]
        debugInfo := s1.debugInfo ++ "\nAdding new point to path" }
    else
      { s1 with debugInfo := s1.debugInfo ++ "\nIgnoring duplicate location" }
  { s2 with error := none }

/-- `watchPosition` error callback: records the message only; neither
`isTracking` nor `watchId` is touched, for any error kind. -/
def handleWatchError (e : SensorErrorKind) (s : TrackerState) : TrackerState :=
  { s with
    error := some ("Failed to get location: " ++ errMessage e)
    debugInfo := s.debugInfo ++ "\nLocation error: " ++ errMessage e }

/-- `stopTracking`: clear the watch when one is stored, drop the handle,
flip `isTracking`, append to the debug log. -/
def stopTracking (s : TrackerState) : TrackerState :=
  let s1 : TrackerState := if s.watchId.isSome then { s with watchId := none } else s
  { s1 with
    isTracking := false
    debugInfo := s1.debugInfo ++ "\nTracking stopped" }

/-- The synchronous part of `startTracking`: the geolocation-support guard,
`setIsTracking(true)`, `setDebugInfo("Starting tracking...")` (a replacement,
not an append), and `setWatchId(id)` with the handle returned by
`watchPosition`.  The sensor callbacks arrive later as events. -/
def startTracking (geolocationSupported : Bool) (newWatchId : ℕ) (s : TrackerState) :
    TrackerState :=
  if geolocationSupported then
    { s with isTracking := true, debugInfo := "Starting tracking...", watchId := some newWatchId }
  else
    { s with error := some "Geolocation is not supported by your browser" }

/-- The asynchronous events a running session can receive. -/
inductive TrackerEvent
  | initialFix (l : Location)
  | initialErr (e : SensorErrorKind)
  | watchFix (l : Location)
  | watchErr (e : SensorErrorKind)
  | stop
deriving DecidableEq, Repr

/-- Dispatch of one delivered event to its handler. -/
def step : TrackerEvent → TrackerState → TrackerState
  | .initialFix l, s => handleInitialPosition l s
  | .initialErr e, s => handleInitialError e s
  | .watchFix l, s => handleWatchPosition l s
  | .watchErr e, s => handleWatchError e s
  | .stop, s => stopTracking s

/-- The Session aggregate of the design: tracking flag, path, error and
subscription handle (the current position is determined by the path; the
debug log is diagnostic text outside the aggregate). -/
structure SessionView where
  isTracking : Bool
  path : List Location
  error : Option String
  watchId : Option Nat
deriving DecidableEq, Repr

/-- Projection of the component state onto the Session aggregate. -/
def sessionOf (s : TrackerState) : SessionView :=
  { isTracking := s.isTracking, path := s.path, error := s.error, watchId := s.watchId }

/-- Durable store: the `locationPath` key of `localStorage`, `none` when the
key is absent; serialisation round-trips the list exactly. -/
def saveLocationToStorage (writeSucceeds : Bool) (location : Location)
    (store : Option (List Location)) : Option (List Location) :=
  let storedPath := store.getD []
  if writeSucceeds then some (storedPath ++ [location]) else store

/-- The load-from-storage effect: parse the stored payload, empty when absent. -/
def loadStoredPath (store : Option (List Location)) : List Location :=
  store.getD []

/-- N successive successful appends of a list of positions. -/
def appendAll (ps : List Location) (store : Option (List Location)) :
    Option (List Location) :=
  ps.foldl (fun st p => saveLocationToStorage true p st) store

/-- Component state of the background-tracking variant, with the durable
store alongside the in-memory hooks. -/
structure BgTrackerState where
  path : List Location
  isTracking : Bool
  error : Option String
  watchId : Option Nat
  storage : Option (List Location)
deriving DecidableEq, Repr

/-- The background variant's `watchPosition` success callback: on a
significant fix, `saveLocationToStorage(newLocation)` (whose own try/catch
absorbs any storage failure) and append to the in-memory path. -/
def bgHandleWatchPosition (writeSucceeds : Bool) (newLocation : Location)
    (s : BgTrackerState) : BgTrackerState :=
  let lastLocation := s.path.getLast?
  if lastLocation.isNone || isSignificantMove newLocation lastLocation then
    { s with
      storage := saveLocationToStorage writeSucceeds newLocation s.storage
      path := s.path ++ [newLocation] }
  else s

/-- Concrete fixes of Scenario A (exact decimal coordinates). -/
def fixA : Location := ⟨2230720 / 100000, 7318120 / 100000, 0, none⟩

def fixB : Location := ⟨2230721 / 100000, 7318121 / 100000, 1, none⟩

def fixC : Location := ⟨2231000 / 100000, 7318120 / 100000, 2, none⟩

/-- Concrete fixes used in the counterexample runs. -/
def pW : Location := ⟨10, 20, 5, none⟩

def pSeed : Location := ⟨30, 40, 6, none⟩

/-- A freshly started session: empty path, tracking, handle stored. -/
def freshStarted : TrackerState := startTracking true 1 initState

lemma sig_fixB_fixA : isSignificantMove fixB (some fixA) = false := by
  norm_num [isSignificantMove, isSignificantMoveWith, thresholdDegrees, fixA, fixB, abs]

lemma sig_fixC_fixA : isSignificantMove fixC (some fixA) = true := by
  norm_num [isSignificantMove, isSignificantMoveWith, thresholdDegrees, fixA, fixC, abs]

lemma sig_pSeed_pW : isSignificantMove pSeed (some pW) = true := by
  norm_num [isSignificantMove, isSignificantMoveWith, thresholdDegrees, pW, pSeed, abs]

lemma watch_path_append (q : Location) (s : TrackerState)
    (h : (s.path.getLast?.isNone || isSignificantMove q s.path.getLast?) = true) :
    (handleWatchPosition q s).path = s.path ++ [q] := by
  simp only [handleWatchPosition, h, if_true]

lemma watch_path_skip (q : Location) (s : TrackerState)
    (h : (s.path.getLast?.isNone || isSignificantMove q s.path.getLast?) = false) :
    (handleWatchPosition q s).path = s.path := by
  simp only [handleWatchPosition, h, Bool.false_eq_true, if_false]

/-- C4: `isSignificantMove` accepts unconditionally when the last position is
absent, and otherwise accepts exactly when one of the raw (unrounded) axis
differences strictly exceeds the threshold; the session's filter is this
decision at the hard-coded threshold 0.00001. -/
theorem isSignificantMove_characterisation (c l : Location) (t : ℚ) :
    isSignificantMoveWith t c none = true
    ∧ (isSignificantMoveWith t c (some l) = true ↔
        |c.lat - l.lat| > t ∨ |c.lng - l.lng| > t)
    ∧ isSignificantMove c (some l) = isSignificantMoveWith thresholdDegrees c (some l) := by
  refine ⟨rfl, ?_, rfl⟩
  simp [isSignificantMoveWith]

/-- C5: Scenario A — delivering the three fixes (22.30720,73.18120),
(22.30721,73.18121), (22.31000,73.18120) to a freshly started session with
an empty path records exactly the first and the third fix; the second one's
axis differences of 0.00001 do not exceed the threshold. -/
theorem scenarioA_two_points :
    (step (.watchFix fixC) (step (.watchFix fixB) (step (.watchFix fixA) freshStarted))).path
      = [fixA, fixC] := by
  simp [step, handleWatchPosition, freshStarted, startTracking, initState,
    sig_fixB_fixA, sig_fixC_fixA]

/-- C10: the significance decision reads only the latitudes and longitudes:
two calls agreeing on both coordinates of the candidate and of the last
position return the same boolean, whatever their timestamps or accuracies. -/
theorem significance_depends_only_on_coords (c1 c2 l1 l2 : Location)
    (h1 : c1.lat = c2.lat) (h2 : c1.lng = c2.lng)
    (h3 : l1.lat = l2.lat) (h4 : l1.lng = l2.lng) :
    isSignificantMove c1 (some l1) = isSignificantMove c2 (some l2)
    ∧ isSignificantMove c1 none = isSignificantMove c2 none := by
  constructor
  · simp [isSignificantMove, isSignificantMoveWith, h1, h2, h3, h4]
  · rfl

/-- Witness for C10 at concrete positions differing only in metadata. -/
theorem significance_depends_only_on_coords_witness :
    isSignificantMove ⟨1, 2, 0, none⟩ (some ⟨3, 4, 0, none⟩)
      = isSignificantMove ⟨1, 2, 99, some 5⟩ (some ⟨3, 4, 7, none⟩)
    ∧ isSignificantMove ⟨1, 2, 0, none⟩ none
      = isSignificantMove ⟨1, 2, 99, some 5⟩ none :=
  significance_depends_only_on_coords _ _ _ _ rfl rfl rfl rfl

lemma stopTracking_path (s : TrackerState) : (stopTracking s).path = s.path := by
  cases hw : s.watchId <;> simp [stopTracking, hw]

lemma stopTracking_error (s : TrackerState) : (stopTracking s).error = s.error := by
  cases hw : s.watchId <;> simp [stopTracking, hw]

lemma stopTracking_sessionOf (s : TrackerState) :
    sessionOf (stopTracking s) =
      { isTracking := false, path := s.path, error := s.error, watchId := none } := by
  cases hw : s.watchId <;> simp [stopTracking, sessionOf, hw]

/-- A running state with one recorded point, used in concrete runs. -/
def demoTracking : TrackerState :=
  { path := [pW], isTracking := true, error := none, watchId := some 1, debugInfo := "" }

/-- The session after starting, recording one watch fix, and stopping. -/
def stoppedState : TrackerState :=
  stopTracking (step (.watchFix pW) freshStarted)

/-- C1 counterexample: with the session in Tracking, a watch fix is recorded
first, and then the one-shot seed callback runs: it replaces the whole path
with the seed fix, discarding the recorded watch entry. -/
theorem oneShot_replaces_recorded_path :
    (step (.watchFix pW) freshStarted).isTracking = true
    ∧ (step (.watchFix pW) freshStarted).path = [pW]
    ∧ (step (.initialFix pSeed) (step (.watchFix pW) freshStarted)).path = [pSeed]
    ∧ pSeed ≠ pW := by
  refine ⟨?_, ?_, ?_, ?_⟩
  · rfl
  · simp [step, handleWatchPosition, freshStarted, startTracking, initState]
  · simp [step, handleInitialPosition]
  · norm_num [pSeed, pW, Location.mk.injEq]

/-- C1 amended: on an empty path in Tracking, whichever callback runs first
becomes the first path entry, and a watch fix arriving after the seed goes
through the ordinary significance check against it; but a one-shot seed
callback arriving after a recorded watch fix replaces the whole path with
just the seed fix instead of being checked against the recorded entry. -/
theorem tiebreak_order_amended (p q w : Location) (s : TrackerState)
    (htr : s.isTracking = true) (hempty : s.path = []) :
    (handleInitialPosition p s).path = [p]
    ∧ (handleWatchPosition q (handleInitialPosition p s)).path
        = (if isSignificantMove q (some p) then [p, q] else [p])
    ∧ (handleWatchPosition w s).path = [w]
    ∧ (handleInitialPosition p (handleWatchPosition w s)).path = [p] := by
  have h1 : (handleInitialPosition p s).path = [p] := by simp [handleInitialPosition]
  refine ⟨h1, ?_, ?_, by simp [handleInitialPosition]⟩
  · by_cases hq : isSignificantMove q (some p) = true
    · rw [watch_path_append q _ (by simp [h1, hq]), h1, hq]
      simp
    · rw [Bool.not_eq_true] at hq
      rw [watch_path_skip q _ (by simp [h1, hq]), h1, hq]
      simp
  · rw [watch_path_append w s (by simp [hempty]), hempty]
    rfl

/-- Witness for the amended C1 at a freshly started session. -/
theorem tiebreak_order_amended_witness :
    (handleInitialPosition pSeed freshStarted).path = [pSeed]
    ∧ (handleWatchPosition pW (handleInitialPosition pSeed freshStarted)).path
        = (if isSignificantMove pW (some pSeed) then [pSeed, pW] else [pSeed])
    ∧ (handleWatchPosition pW freshStarted).path = [pW]
    ∧ (handleInitialPosition pSeed (handleWatchPosition pW freshStarted)).path = [pSeed] :=
  tiebreak_order_amended pSeed pW pW freshStarted rfl rfl

/-- C2 counterexample: the one-shot seed handler applied to a one-entry path
changes the path without extending it: the result differs from the old path
yet has the same length, so it is neither "unchanged" nor "extended by
exactly one position at the end". -/
theorem seed_handler_not_append_only :
    (handleInitialPosition pSeed demoTracking).path ≠ demoTracking.path
    ∧ (handleInitialPosition pSeed demoTracking).path.length = demoTracking.path.length := by
  constructor
  · norm_num [handleInitialPosition, demoTracking, pSeed, pW, Location.mk.injEq]
  · rfl

/-- C2 amended: every event handler leaves the path unchanged or appends
exactly one entry at the end — a watch fix, appended only when the path was
empty or the fix was significant relative to the previous last entry —
except the one-shot seed handler, which replaces the path wholesale with
the single seed fix. -/
theorem step_path_evolution (e : TrackerEvent) (s : TrackerState) :
    (step e s).path = s.path
    ∨ (∃ l, e = .watchFix l ∧ (step e s).path = s.path ++ [l]
        ∧ (s.path.getLast? = none ∨ isSignificantMove l s.path.getLast? = true))
    ∨ (∃ l, e = .initialFix l ∧ (step e s).path = [l]) := by
  cases e with
  | initialFix l =>
    exact Or.inr (Or.inr ⟨l, rfl, by simp [step, handleInitialPosition]⟩)
  | initialErr e => exact Or.inl (by simp [step, handleInitialError])
  | watchFix l =>
    by_cases h : (s.path.getLast?.isNone || isSignificantMove l s.path.getLast?) = true
    · refine Or.inr (Or.inl ⟨l, rfl, watch_path_append l s h, ?_⟩)
      rcases Bool.or_eq_true_iff.mp h with h1 | h1
      · exact Or.inl (Option.isNone_iff_eq_none.mp h1)
      · exact Or.inr h1
    · rw [Bool.not_eq_true] at h
      exact Or.inl (watch_path_skip l s h)
  | watchErr e => exact Or.inl (by simp [step, handleWatchError])
  | stop => exact Or.inl (stopTracking_path s)

/-- C3 counterexample: `stopTracking` has returned (the tracking flag is
down), yet a late watch callback still appends its fix to the path and
moves the consumer-visible current position. -/
theorem late_fix_appended_after_stop :
    stoppedState.isTracking = false
    ∧ stoppedState.path = [pW]
    ∧ (handleWatchPosition pSeed stoppedState).path = [pW, pSeed]
    ∧ currentPosition stoppedState = some pW
    ∧ currentPosition (handleWatchPosition pSeed stoppedState) = some pSeed := by
  have hpath : stoppedState.path = [pW] := by
    simp [stoppedState, step, freshStarted, startTracking, initState, stopTracking,
      handleWatchPosition]
  refine ⟨rfl, hpath, ?_, ?_, ?_⟩
  · rw [watch_path_append pSeed stoppedState (by simp [hpath, sig_pSeed_pW]), hpath]
    rfl
  · simp [currentPosition, hpath]
  · rw [currentPosition,
      watch_path_append pSeed stoppedState (by simp [hpath, sig_pSeed_pW])]
    exact List.getLast?_concat _

/-- C3 amended: the watch callback consults no session state, so a fix
delivered after `stop()` has returned (tracking flag already down) that is
significant relative to the last recorded entry is still appended to the
path and becomes the consumer-visible current position. -/
theorem late_callback_still_processed (q : Location) (s : TrackerState)
    (hstop : s.isTracking = false)
    (hsig : isSignificantMove q s.path.getLast? = true) :
    (handleWatchPosition q s).path = s.path ++ [q]
    ∧ currentPosition (handleWatchPosition q s) = some q := by
  have hp := watch_path_append q s (by simp [hsig])
  exact ⟨hp, by rw [currentPosition, hp]; exact List.getLast?_concat _⟩

/-- Witness for the amended C3 at the concrete stopped session. -/
theorem late_callback_still_processed_witness :
    (handleWatchPosition pSeed stoppedState).path = stoppedState.path ++ [pSeed]
    ∧ currentPosition (handleWatchPosition pSeed stoppedState) = some pSeed :=
  late_callback_still_processed pSeed stoppedState rfl
    (by simp [stoppedState, step, freshStarted, startTracking, initState, stopTracking,
      handleWatchPosition, sig_pSeed_pW])

/-- C6: a `PositionUnavailable` or `Timeout` error delivered while Tracking
leaves the tracking flag up, records the error message for display, keeps
the subscription handle and the path, and a subsequent fix significant
relative to the last entry is still appended normally. -/
theorem transient_error_keeps_tracking (e : SensorErrorKind) (q : Location) (s : TrackerState)
    (htr : s.isTracking = true)
    (he : e = .positionUnavailable ∨ e = .timeout)
    (hsig : isSignificantMove q s.path.getLast? = true) :
    (handleWatchError e s).isTracking = true
    ∧ (handleWatchError e s).error = some ("Failed to get location: " ++ errMessage e)
    ∧ (handleWatchError e s).watchId = s.watchId
    ∧ (handleWatchError e s).path = s.path
    ∧ (handleWatchPosition q (handleWatchError e s)).path = s.path ++ [q] := by
  refine ⟨by simp [handleWatchError, htr], rfl, rfl, rfl, ?_⟩
  have hpath : (handleWatchError e s).path = s.path := rfl
  rw [watch_path_append q _ (by simp [hpath, hsig]), hpath]

/-- Witness for C6: a timeout at a running one-point session. -/
theorem transient_error_keeps_tracking_witness :
    (handleWatchError .timeout demoTracking).isTracking = true
    ∧ (handleWatchError .timeout demoTracking).error
        = some ("Failed to get location: " ++ errMessage .timeout)
    ∧ (handleWatchError .timeout demoTracking).watchId = demoTracking.watchId
    ∧ (handleWatchError .timeout demoTracking).path = demoTracking.path
    ∧ (handleWatchPosition pSeed (handleWatchError .timeout demoTracking)).path
        = demoTracking.path ++ [pSeed] :=
  transient_error_keeps_tracking .timeout pSeed demoTracking rfl (Or.inr rfl)
    (by simp [demoTracking, sig_pSeed_pW])

/-- C7: `stopTracking` is idempotent on the Session aggregate (tracking
flag, path, error, subscription handle — the current position is a function
of the path), and in Idle (flag down, no stored handle) it leaves the
aggregate unchanged; it is a total function, so no error is raised. -/
theorem stopTracking_idempotent (s : TrackerState) :
    sessionOf (stopTracking (stopTracking s)) = sessionOf (stopTracking s)
    ∧ (s.isTracking = false → s.watchId = none →
        sessionOf (stopTracking s) = sessionOf s) := by
  constructor
  · rw [stopTracking_sessionOf, stopTracking_sessionOf, stopTracking_path, stopTracking_error]
  · intro h1 h2
    rw [stopTracking_sessionOf]
    simp [sessionOf, h1, h2]

/-- Witness for C7 at the Idle initial state. -/
theorem stopTracking_idempotent_witness :
    sessionOf (stopTracking (stopTracking initState)) = sessionOf (stopTracking initState)
    ∧ sessionOf (stopTracking initState) = sessionOf initState :=
  ⟨(stopTracking_idempotent initState).1, (stopTracking_idempotent initState).2 rfl rfl⟩

lemma appendAll_some (ps : List Location) (acc : List Location) :
    appendAll ps (some acc) = some (acc ++ ps) := by
  induction ps generalizing acc with
  | nil => simp [appendAll]
  | cons p rest ih =>
    show appendAll rest (saveLocationToStorage true p (some acc)) = _
    rw [show saveLocationToStorage true p (some acc) = some (acc ++ [p]) from rfl, ih]
    simp

/-- C8: loading after N successful appends on an initially empty durable
store returns exactly the appended positions in append order. -/
theorem storage_roundtrip (ps : List Location) :
    loadStoredPath (appendAll ps none) = ps := by
  cases ps with
  | nil => rfl
  | cons p rest =>
    show loadStoredPath (appendAll rest (saveLocationToStorage true p none)) = _
    rw [show saveLocationToStorage true p none = some ([] ++ [p]) from rfl, appendAll_some]
    simp [loadStoredPath]

/-- A running background-variant state with one recorded and stored point. -/
def bgDemo : BgTrackerState :=
  { path := [pW], isTracking := true, error := none, watchId := some 2, storage := some [pW] }

/-- C9: when the durable write fails during a significant fix, the handler
still appends the fix to the in-memory path, the tracking flag is
unchanged, and the store is simply left as it was. -/
theorem storage_failure_keeps_path (q : Location) (s : BgTrackerState)
    (hsig : (s.path.getLast?.isNone || isSignificantMove q s.path.getLast?) = true) :
    (bgHandleWatchPosition false q s).path = s.path ++ [q]
    ∧ (bgHandleWatchPosition false q s).isTracking = s.isTracking
    ∧ (bgHandleWatchPosition false q s).storage = s.storage := by
  simp [bgHandleWatchPosition, hsig, saveLocationToStorage]

/-- Witness for C9 at a concrete running background session. -/
theorem storage_failure_keeps_path_witness :
    (bgHandleWatchPosition false pSeed bgDemo).path = bgDemo.path ++ [pSeed]
    ∧ (bgHandleWatchPosition false pSeed bgDemo).isTracking = bgDemo.isTracking
    ∧ (bgHandleWatchPosition false pSeed bgDemo).storage = bgDemo.storage :=
  storage_failure_keeps_path pSeed bgDemo (by simp [bgDemo, sig_pSeed_pW])
